import Mathlib

/-!
Verification development for the API Weaver repository.

The repository splits into a React frontend (present in the source tree:
the generator page, the database-connection page, and their handlers) and a
schema-to-project generation engine (described by the design document; its
backend implementation is not part of the frontend tree, so it is modelled
here from the design document's words).

Frontend definitions below are direct shallow embeddings of the JavaScript
handlers; engine definitions carry a doc comment starting with
`Modelled from the spec:`.
-/

namespace APIWeaver

/-! ## Frontend embedding: the API generator page (APIGenerator.js) -/

/-- Response object returned by the backend to the frontend, as consumed by
`handleGenerate`: it reads `result.status` and `result.message`. -/
structure GenResponse where
  status : String
  message : Option String
deriving DecidableEq

/-- The step-2 configuration controls of the generator page. In the source
these DOM controls (framework select, auth checkbox, docs checkbox) have no
`value`/`onChange` binding to component state, so the generate handler's
behaviour is constant in them; they are threaded here as an explicit
argument to make that fact statable. -/
structure UIState where
  frameworkChoice : String
  includeAuthChecked : Bool
  includeDocsChecked : Bool
deriving DecidableEq

/-- JSON body posted to `/api/generate` by `handleGenerate`. -/
structure GenerateBody where
  database_type : String
  tables : List String
  framework : String
  include_auth : Bool
deriving DecidableEq

/-- What `handleGenerate` does before the network call: either it rejects an
empty table selection (toast error, early return, no request posted) or it
posts a request body. -/
inductive GenerateAction where
  | rejectedEmptySelection
  | posted (body : GenerateBody)
deriving DecidableEq

/-- Embedding of the first half of `handleGenerate`: the empty-selection
guard followed by construction of the request body. The body hard-codes
`framework: 'flask'` and `include_auth: true`. -/
def generateAction (databaseType : String) (selectedTables : List String)
    (_ui : UIState) : GenerateAction :=
  if selectedTables.length = 0 then
    .rejectedEmptySelection
  else
    .posted { database_type := databaseType, tables := selectedTables,
              framework := "flask", include_auth := true }

/-- UI outcome of the response-handling half of `handleGenerate`. -/
inductive ResponseHandling where
  | showSuccess
  | showError (msg : String)
deriving DecidableEq

/-- Embedding of the response branch of `handleGenerate`: success is
recognised exactly when `result.status === 'success'`; otherwise the page
shows `result.message || 'Generation failed'`. -/
def handleGenerateResponse (result : GenResponse) : ResponseHandling :=
  if result.status = "success" then .showSuccess
  else .showError (result.message.getD "Generation failed")

/-! ## Frontend embedding: the database connection page (DatabaseConnection.js) -/

/-- The connection form state: host/port/username/password/database for
MySQL, or connection string plus database for MongoDB. All fields live in
one record, exactly as in the `connectionData` state object. -/
structure ConnectionData where
  host : String
  port : String
  username : String
  password : String
  database : String
  connection_string : String
deriving DecidableEq

/-- The record `handleConnect` serialises into `localStorage` under the key
`dbConnection`: the database type, the complete connection form data, and
the table (or collection) list from the connect response.
`JSON.stringify`/`JSON.parse` is the identity round trip on these records,
so the stored value is kept structured. -/
structure StoredConnection where
  type : String
  data : ConnectionData
  tables : Option (List String)
deriving DecidableEq

/-- Browser `localStorage`, restricted to the records this app stores.
Entries persist across page navigations and sessions. -/
abbrev LocalStorage := List (String × StoredConnection)

def setItem (store : LocalStorage) (key : String) (v : StoredConnection) :
    LocalStorage :=
  (key, v) :: store.filter (fun kv => kv.1 != key)

def getItem : LocalStorage → String → Option StoredConnection
  | [], _ => none
  | (k, v) :: rest, key => if k == key then some v else getItem rest key

/-- Response of `/api/connect/mysql` or `/api/connect/mongodb` as consumed
by `handleConnect`. -/
structure ConnectResult where
  status : String
  message : Option String
  tables : Option (List String)
  collections : Option (List String)
deriving DecidableEq

/-- Navigation effect of `handleConnect`. -/
inductive NavTarget where
  | generate
  | stay
deriving DecidableEq

/-- Embedding of `handleConnect`: on a success response it writes
`{type, data: connectionData, tables: result.tables || result.collections}`
to `localStorage['dbConnection']` and navigates to `/generate`; otherwise
the store is untouched. -/
def handleConnect (connectionType : String) (connectionData : ConnectionData)
    (result : ConnectResult) (store : LocalStorage) : LocalStorage × NavTarget :=
  if result.status = "success" then
    (setItem store "dbConnection"
      { type := connectionType, data := connectionData,
        tables := result.tables <|> result.collections },
     .generate)
  else
    (store, .stay)

/-- Initial state of the generator page after its mount effect. -/
inductive GeneratorInit where
  | loaded (conn : StoredConnection) (selectedTables : List String)
  | redirectToConnect
deriving DecidableEq

/-- Embedding of the generator page's mount effect: it parses
`localStorage['dbConnection']` and adopts the record verbatim (no
validation), pre-selecting `connection.tables || []`; with no stored record
it redirects to `/connect`. -/
def apiGeneratorLoad (store : LocalStorage) : GeneratorInit :=
  match getItem store "dbConnection" with
  | some c => .loaded c (c.tables.getD [])
  | none => .redirectToConnect

/-! ## Engine data model (design document sections 3 and 4; backend code is
not in the frontend tree, so the engine is modelled from the spec). -/

/-- Modelled from the spec: canonical logical field types of the Schema
Model (section 3, `Field.logicalType`). -/
inductive LogicalType where
  | integer
  | float
  | text
  | boolean
  | datetime
  | identifier
  | reference (target : String)
  | unknown
deriving DecidableEq

/-- Modelled from the spec: resource kind (section 3, `Resource.kind`). -/
inductive ResourceKind where
  | relational
  | document
deriving DecidableEq

/-- Modelled from the spec: one field of the raw introspection payload
(section 6 input contract: name, rawType, nullable, primary-key marking and
foreign-key target for relational resources). -/
structure RawField where
  name : String
  rawType : String
  nullable : Bool
  isPrimaryKey : Bool
  refTarget : Option String
deriving DecidableEq

/-- Modelled from the spec: one resource of the raw introspection payload. -/
structure RawResource where
  name : String
  kind : ResourceKind
  fields : List RawField
deriving DecidableEq

/-- Modelled from the spec: the raw introspection payload handed to the
Schema Normalizer. -/
structure RawPayload where
  resources : List RawResource
deriving DecidableEq

/-- Modelled from the spec: a normalized field (section 3). -/
structure Field where
  rawName : String
  resolvedName : String
  logicalType : LogicalType
  nullable : Bool
  isPrimaryKey : Bool
deriving DecidableEq

/-- Modelled from the spec: a normalized resource (section 3). -/
structure Resource where
  rawName : String
  resolvedName : String
  kind : ResourceKind
  fields : List Field
deriving DecidableEq

/-- Modelled from the spec: the Schema Model, an ordered sequence of
resources (section 3). -/
structure SchemaModel where
  resources : List Resource
deriving DecidableEq

/-- Modelled from the spec: supported target framework families
(section 3, `GenerationRequest.targetFamily`). -/
inductive TargetFamily where
  | syncRouted
  | asyncRouted
  | eventLoopRouted
deriving DecidableEq

/-- Modelled from the spec: auth configuration supplied at generation time
(section 6). -/
structure AuthConfig where
  secretKey : String
  tokenLifetimeSeconds : Nat
deriving DecidableEq

/-- Modelled from the spec: a generation request (section 3). -/
structure GenerationRequest where
  raw : RawPayload
  selectedResourceNames : List String
  targetFamily : TargetFamily
  includeAuth : Bool
  includeDocs : Bool
  authConfig : Option AuthConfig
deriving DecidableEq

/-- Modelled from the spec: the fatal error taxonomy (section 7). -/
inductive ErrorKind where
  | schemaError
  | unsupportedTypeError
  | nameCollisionUnresolvable
  | renderError
  | packagingError
deriving DecidableEq

/-- Modelled from the spec: a fatal generation error. -/
structure GenError where
  kind : ErrorKind
  message : String
deriving DecidableEq

/-- Modelled from the spec: a non-fatal warning entry surfaced alongside a
successful result (section 6 output contract). -/
structure Warning where
  resourceName : String
  fieldName : String
  message : String
deriving DecidableEq

/-! ## Engine: Schema Normalizer (spec 4.1) -/

/-- Lowercasing over the character list, kept elementary so concrete
evaluation stays kernel-friendly. -/
def lowerStr (s : String) : String :=
  String.mk (s.toList.map Char.toLower)

/-- Modelled from the spec: the raw-column-type table of the Normalizer;
unknown or unsupported raw types map to `LogicalType.unknown` and the field
is retained, not dropped (spec 4.1). -/
def mapRawType (t : String) : LogicalType :=
  let s := lowerStr t
  if s == "int" || s == "integer" || s == "bigint" || s == "smallint" then .integer
  else if s == "float" || s == "double" || s == "decimal" then .float
  else if s == "varchar" || s == "text" || s == "char" || s == "string" then .text
  else if s == "bool" || s == "boolean" then .boolean
  else if s == "datetime" || s == "timestamp" || s == "date" then .datetime
  else if s == "objectid" || s == "uuid" then .identifier
  else .unknown

/-- Modelled from the spec: the document kind's conventional identifier
field name (spec 4.1); a document field with exactly this name is inferred
as the primary key. -/
def conventionalIdentifier : String := "_id"

/-- Modelled from the spec: the synthetic identifier field appended to a
document resource that declares no conventional identifier (spec 4.1). -/
def synthIdField : Field :=
  { rawName := conventionalIdentifier, resolvedName := conventionalIdentifier,
    logicalType := .identifier, nullable := false, isPrimaryKey := true }

/-- Modelled from the spec: normalization of one raw field; foreign-key
targets become `reference`, other raw types go through the type table.
Resolved names are placeholders until the Identifier Resolver pass. -/
def normalizeField (f : RawField) : Field :=
  { rawName := f.name, resolvedName := f.name,
    logicalType :=
      match f.refTarget with
      | some t => .reference t
      | none => mapRawType f.rawType,
    nullable := f.nullable, isPrimaryKey := f.isPrimaryKey }

/-- Modelled from the spec: field-list normalization per resource kind;
relational primary keys map directly, document resources infer a primary
key only from the conventional identifier name and otherwise get the
synthetic identifier appended (spec 4.1). -/
def normFields (kind : ResourceKind) (fs : List RawField) : List Field :=
  let base := fs.map normalizeField
  match kind with
  | .relational => base
  | .document =>
    if fs.any (fun f => f.name == conventionalIdentifier) then
      base.map (fun f =>
        if f.rawName == conventionalIdentifier then
          { f with isPrimaryKey := true }
        else f)
    else
      base ++ [synthIdField]

/-- Modelled from the spec: normalization of one raw resource; a resource
with zero fields is a `SchemaError` (spec 4.1). -/
def normalizeResource (r : RawResource) : Except GenError Resource :=
  match r.fields with
  | [] => .error ⟨.schemaError, "resource " ++ r.name ++ " has no fields"⟩
  | f :: fs =>
    .ok { rawName := r.name, resolvedName := r.name, kind := r.kind,
          fields := normFields r.kind (f :: fs) }

/-- Modelled from the spec: normalization of the resource list, failing on
the first empty resource. -/
def normalizeAll : List RawResource → Except GenError (List Resource)
  | [] => .ok []
  | r :: rs =>
    match normalizeResource r with
    | .error e => .error e
    | .ok r' =>
      match normalizeAll rs with
      | .error e => .error e
      | .ok rs' => .ok (r' :: rs')

/-- Modelled from the spec: the Schema Normalizer; a payload with zero
resources is a `SchemaError` (spec 4.1). -/
def normalize (p : RawPayload) : Except GenError SchemaModel :=
  match p.resources with
  | [] => .error ⟨.schemaError, "introspection payload has no resources"⟩
  | r :: rs =>
    match normalizeAll (r :: rs) with
    | .error e => .error e
    | .ok rs' => .ok ⟨rs'⟩

/-! ## Engine: Identifier Resolver (spec 4.3) -/

/-- Modelled from the spec: case normalization followed by stripping of
non-alphanumeric separators (spec 4.3 step one and two). -/
def normalizeIdent (s : String) : String :=
  String.mk ((s.toList.map Char.toLower).filter Char.isAlphanum)

/-- Suffix test over character lists, kernel-friendly. -/
def endsWithStr (s suffix : String) : Bool :=
  suffix.toList.isSuffixOf s.toList

/-- Modelled from the spec: the fixed pluralization suffix rule table of
the Identifier Resolver (default appends "s", special cases "y" to "ies"
and sibilant endings to "es"; irregular plurals are out of scope,
spec 4.3). -/
def pluralize (s : String) : String :=
  if endsWithStr s "y" then String.mk s.toList.dropLast ++ "ies"
  else if endsWithStr s "s" || endsWithStr s "x" || endsWithStr s "z" ||
      endsWithStr s "ch" || endsWithStr s "sh" then s ++ "es"
  else s ++ "s"

/-- Modelled from the spec: reserved keywords of each target family
(spec 4.3 keyword clash step; a fixed per-family table). -/
def reservedWords (fam : TargetFamily) : List String :=
  match fam with
  | .syncRouted => ["class", "def", "return", "global", "pass", "lambda"]
  | .asyncRouted => ["class", "def", "return", "global", "pass", "lambda"]
  | .eventLoopRouted => ["class", "function", "return", "var", "let", "const"]

/-- Modelled from the spec: the fixed per-family escape token prefixed onto
a resolved name that collides with a reserved keyword (spec 4.3). -/
def escapeToken (fam : TargetFamily) : String :=
  match fam with
  | .syncRouted => "py_"
  | .asyncRouted => "py_"
  | .eventLoopRouted => "js_"

/-- Helper for deterministic suffixing: walk candidate suffixes `_k`,
`_k+1`, ... until one is free of the used-name accumulator; the fuel bound
makes the search structurally recursive and is always sufficient. -/
def freshNameAux (used : List String) (base : String) : Nat → Nat → String
  | 0, k => base ++ "_" ++ toString k
  | fuel + 1, k =>
    let cand := base ++ "_" ++ toString k
    if used.contains cand then freshNameAux used base fuel (k + 1) else cand

/-- Modelled from the spec: deterministic collision suffixing — the first
occurrence keeps the bare name, later colliding occurrences get `_2`, `_3`,
... in declaration order (spec 4.3). -/
def freshName (used : List String) (base : String) : String :=
  if used.contains base then freshNameAux used base (used.length + 1) 2
  else base

/-- Modelled from the spec: full resolution of one raw name against a
used-name accumulator (case fold, separator strip, keyword escape, then
collision suffix). -/
def resolveOne (fam : TargetFamily) (used : List String) (raw : String) : String :=
  let base := normalizeIdent raw
  let escaped := if (reservedWords fam).contains base then escapeToken fam ++ base else base
  freshName used escaped

/-- Modelled from the spec: resolution of the field names of one resource,
threading the collision accumulator explicitly in declaration order
(spec 4.3 and the design note of section 9). -/
def resolveFieldNames (fam : TargetFamily) (fs : List Field) : List Field :=
  (fs.foldl
    (fun (acc : List String × List Field) f =>
      let name := resolveOne fam acc.1 f.rawName
      (acc.1 ++ [name], acc.2 ++ [{ f with resolvedName := name }]))
    ([], [])).2

/-- Modelled from the spec: resolution of the resource names of the schema,
threading the collision accumulator explicitly in declaration order. -/
def resolveResourceNames (fam : TargetFamily) (rs : List Resource) : List Resource :=
  (rs.foldl
    (fun (acc : List String × List Resource) r =>
      let name := resolveOne fam acc.1 r.rawName
      (acc.1 ++ [name], acc.2 ++ [{ r with resolvedName := name }]))
    ([], [])).2

/-- Modelled from the spec: the Identifier Resolver pass over a normalized
schema: resource names share one scope, each resource's field names share a
per-resource scope. -/
def resolveSchema (fam : TargetFamily) (m : SchemaModel) : SchemaModel :=
  ⟨(resolveResourceNames fam m.resources).map
    (fun r => { r with fields := resolveFieldNames fam r.fields })⟩

/-! ## Engine: Type Mapper (spec 4.2) -/

/-- Modelled from the spec: the authoritative type table, one column per
target family; `unknown` has no entry and falls through to the family's
permissive fallback (spec 4.2). -/
def typeTable (fam : TargetFamily) (t : LogicalType) : Option String :=
  match fam, t with
  | _, .unknown => none
  | .syncRouted, .integer => some "int"
  | .syncRouted, .float => some "float"
  | .syncRouted, .text => some "str"
  | .syncRouted, .boolean => some "bool"
  | .syncRouted, .datetime => some "datetime"
  | .syncRouted, .identifier => some "str"
  | .syncRouted, .reference _ => some "int"
  | .asyncRouted, .integer => some "int"
  | .asyncRouted, .float => some "float"
  | .asyncRouted, .text => some "str"
  | .asyncRouted, .boolean => some "bool"
  | .asyncRouted, .datetime => some "datetime"
  | .asyncRouted, .identifier => some "str"
  | .asyncRouted, .reference _ => some "int"
  | .eventLoopRouted, .integer => some "Number"
  | .eventLoopRouted, .float => some "Number"
  | .eventLoopRouted, .text => some "String"
  | .eventLoopRouted, .boolean => some "Boolean"
  | .eventLoopRouted, .datetime => some "Date"
  | .eventLoopRouted, .identifier => some "String"
  | .eventLoopRouted, .reference _ => some "String"

/-- Modelled from the spec: each family's most permissive representable
type, used as the `unknown` fallback (spec 4.2). -/
def fallbackType : TargetFamily → String
  | .syncRouted => "str"
  | .asyncRouted => "str"
  | .eventLoopRouted => "any"

/-- Modelled from the spec: the Type Mapper as a total function — table
entry where one exists, permissive fallback otherwise. -/
def typeExpr (fam : TargetFamily) (t : LogicalType) : String :=
  (typeTable fam t).getD (fallbackType fam)

/-- Unknown-type test used when collecting warnings. -/
def isUnknownType : LogicalType → Bool
  | .unknown => true
  | _ => false

/-- Modelled from the spec: the non-fatal warning entries recorded for
fields whose logical type fell back to the permissive representation
(spec 4.2 and section 7 non-fatal conditions). -/
def typeWarnings (selected : List String) (m : SchemaModel) : List Warning :=
  ((m.resources.filter (fun r => selected.contains r.rawName)).map
    (fun r =>
      (r.fields.filter (fun f => isUnknownType f.logicalType)).map
        (fun f =>
          ⟨r.resolvedName, f.resolvedName,
           "unknown type mapped to permissive fallback"⟩))).flatten

/-! ## Engine: Route Synthesizer (spec 4.4) -/

/-- Modelled from the spec: the five canonical CRUD methods, in the fixed
emission order of spec 4.6. -/
inductive Method where
  | list
  | get
  | create
  | update
  | delete
deriving DecidableEq

def methodName : Method → String
  | .list => "LIST"
  | .get => "GET"
  | .create => "CREATE"
  | .update => "UPDATE"
  | .delete => "DELETE"

/-- Modelled from the spec: a derived route specification (section 3,
`RouteSpec`); request and response shapes are field-name lists, reference
fields being represented by the foreign identifier value only (spec 4.4). -/
structure RouteSpec where
  resourceName : String
  method : Method
  path : String
  requestShape : List String
  responseShape : List String
  requiresAuth : Bool
  requiredRole : Option String
deriving DecidableEq

def fieldShape (fs : List Field) : List String :=
  fs.map (fun f => f.resolvedName)

def bodyShape (fs : List Field) : List String :=
  (fs.filter (fun f => !f.isPrimaryKey)).map (fun f => f.resolvedName)

/-- Modelled from the spec: the five canonical CRUD route specs of one
resource — LIST and CREATE on the pluralized collection path, GET, UPDATE
and DELETE on the primary-key item path, emitted in the fixed method order
(spec 4.4 and 4.6). -/
def routesFor (r : Resource) : List RouteSpec :=
  let seg := pluralize r.resolvedName
  let collectionPath := "/" ++ seg
  let itemPath := "/" ++ seg ++ "/{id}"
  [ ⟨r.resolvedName, .list, collectionPath, [], fieldShape r.fields, false, none⟩,
    ⟨r.resolvedName, .get, itemPath, [], fieldShape r.fields, false, none⟩,
    ⟨r.resolvedName, .create, collectionPath, bodyShape r.fields, fieldShape r.fields, false, none⟩,
    ⟨r.resolvedName, .update, itemPath, bodyShape r.fields, fieldShape r.fields, false, none⟩,
    ⟨r.resolvedName, .delete, itemPath, [], [], false, none⟩ ]

/-- Modelled from the spec: route synthesis for the selected resources, in
schema declaration order (spec 4.4; selection fidelity of section 8). -/
def synthRoutes (selected : List String) (m : SchemaModel) : List RouteSpec :=
  ((m.resources.filter (fun r => selected.contains r.rawName)).map routesFor).flatten

/-! ## Engine: Auth Scaffolder (spec 4.5) -/

/-- Modelled from the spec: when auth is included every synthesized route
spec is wrapped with `requiresAuth = true` (spec 4.5). -/
def authScaffoldRoutes (rs : List RouteSpec) : List RouteSpec :=
  rs.map (fun r => { r with requiresAuth := true })

/-- Modelled from the spec: the two injected non-CRUD routes,
issue-credential and verify-credential (spec 4.5); issuing a credential
cannot itself demand one. -/
def authExtraRoutes : List RouteSpec :=
  [ ⟨"auth", .create, "/auth/token", ["username", "password"], ["token"], false, none⟩,
    ⟨"auth", .get, "/auth/verify", [], ["valid"], true, none⟩ ]

/-- Modelled from the spec: the Auth Scaffolder pass. -/
def applyAuth (includeAuth : Bool) (rs : List RouteSpec) : List RouteSpec :=
  if includeAuth then authScaffoldRoutes rs ++ authExtraRoutes else rs

/-- Modelled from the spec: the credential carried by an incoming request,
as seen by a generated route — absent, invalid, or valid with a declared
role (section 1 external collaborator contract). -/
inductive Cred where
  | missing
  | invalid
  | valid (role : String)
deriving DecidableEq

/-- Modelled from the spec: the role-gated access check of a generated
route — with auth required, only a valid credential whose declared role
meets the route's role requirement passes (spec 4.5). -/
def accessCheck (spec : RouteSpec) (c : Cred) : Bool :=
  if spec.requiresAuth then
    match c with
    | .valid role =>
      match spec.requiredRole with
      | none => true
      | some required => role == required
    | _ => false
  else true

/-- The data touched by a generated route's business logic. -/
abbrev DataStore := List (String × String)

/-- Outcome kind of running one generated route. -/
inductive RouteResponse where
  | authFailureResponse
  | businessResponse
deriving DecidableEq

/-- Full observable result of running one generated route: the response
kind, whether business logic executed, and the resulting data store. -/
structure RouteExec where
  response : RouteResponse
  businessRan : Bool
  store : DataStore
deriving DecidableEq

/-- Modelled from the spec: execution of one generated route — the access
check runs before business logic, and a failed check produces an
authorization-failure response with no read or write of data (spec 4.5
fail-closed requirement). -/
def runRoute (spec : RouteSpec) (c : Cred) (business : DataStore → DataStore)
    (st : DataStore) : RouteExec :=
  if accessCheck spec c then ⟨.businessResponse, true, business st⟩
  else ⟨.authFailureResponse, false, st⟩

/-! ## Engine: Documentation Synthesizer (spec 4.7) -/

/-- Modelled from the spec: one operation entry of the documentation
artifact. -/
structure DocEntry where
  method : Method
  path : String
  resourceName : String
deriving DecidableEq

/-- Modelled from the spec: the Documentation Synthesizer consumes the same
route-spec sequence the renderer uses and produces exactly one operation
entry per route spec (spec 4.7). -/
def docEntriesFor (routes : List RouteSpec) : List DocEntry :=
  routes.map (fun r => ⟨r.method, r.path, r.resourceName⟩)

/-! ## Engine: Template Renderer (spec 4.6) and Artifact Packager (spec 4.8) -/

/-- Modelled from the spec: one file of the artifact bundle (section 3,
`ArtifactBundle.files` entries). -/
structure BundleFile where
  relativePath : String
  content : String
  isBinary : Bool
deriving DecidableEq

/-- Modelled from the spec: the artifact bundle, an ordered file sequence
(section 3). -/
structure ArtifactBundle where
  files : List BundleFile
deriving DecidableEq

/-- Newline join kept elementary for kernel evaluation. -/
def joinLines : List String → String
  | [] => ""
  | [x] => x
  | x :: y :: xs => x ++ "\n" ++ joinLines (y :: xs)

/-- Modelled from the spec: per-family source file extension of the fixed
project-layout table (spec 4.6). -/
def familyExt : TargetFamily → String
  | .syncRouted => ".py"
  | .asyncRouted => ".py"
  | .eventLoopRouted => ".js"

/-- Modelled from the spec: rendered entry-point file listing the resources
in declaration order (spec 4.6 order-stable traversal). -/
def mainFile (fam : TargetFamily) (sel : List Resource) : BundleFile :=
  ⟨"app" ++ familyExt fam, joinLines (sel.map (fun r => r.resolvedName)), false⟩

/-- Modelled from the spec: rendered model file of one resource, one typed
line per field using the Type Mapper's expressions (spec 4.6). -/
def renderModelFile (fam : TargetFamily) (r : Resource) : BundleFile :=
  ⟨"models/" ++ r.resolvedName ++ familyExt fam,
   joinLines (r.fields.map (fun f => f.resolvedName ++ ": " ++ typeExpr fam f.logicalType)),
   false⟩

/-- Modelled from the spec: rendered route file of one resource, one line
per route in the fixed method order (spec 4.6). -/
def renderResourceFile (fam : TargetFamily) (resName : String)
    (rs : List RouteSpec) : BundleFile :=
  ⟨"routes/" ++ resName ++ familyExt fam,
   joinLines (rs.map (fun r => methodName r.method ++ " " ++ r.path)),
   false⟩

/-- Modelled from the spec: the fixed authentication-module template,
parameterized by the generation-time secret key and token lifetime
(spec 4.5). -/
def authModuleFile (fam : TargetFamily) (cfg : AuthConfig) : BundleFile :=
  ⟨"auth/auth_module" ++ familyExt fam,
   "secret_key=" ++ cfg.secretKey ++ "\n" ++
     "token_lifetime=" ++ toString cfg.tokenLifetimeSeconds,
   false⟩

/-- Modelled from the spec: the documentation artifact, one file holding
one line per operation entry (spec 4.7 and section 6). -/
def docsFile (entries : List DocEntry) : BundleFile :=
  ⟨"docs/openapi",
   joinLines (entries.map (fun e => methodName e.method ++ " " ++ e.path)),
   false⟩

/-- Modelled from the spec: the Template Renderer — a pure, order-stable
traversal emitting the fixed layout for the selected resources in schema
declaration order (spec 4.6); the type table's fallback is total, so the
`RenderError` branch of the taxonomy is never taken by this layout. -/
def renderAll (fam : TargetFamily) (includeAuth includeDocs : Bool)
    (cfg : Option AuthConfig) (selected : List String) (m : SchemaModel)
    (routes : List RouteSpec) : Except GenError (List BundleFile) :=
  let sel := m.resources.filter (fun r => selected.contains r.rawName)
  let modelFiles := sel.map (renderModelFile fam)
  let routeFiles := sel.map (fun r =>
    renderResourceFile fam r.resolvedName
      (routes.filter (fun rt => rt.resourceName == r.resolvedName)))
  let authFiles :=
    match includeAuth, cfg with
    | true, some c => [authModuleFile fam c]
    | true, none => []
    | false, _ => []
  let docFiles := if includeDocs then [docsFile (docEntriesFor routes)] else []
  .ok (mainFile fam sel :: modelFiles ++ routeFiles ++ authFiles ++ docFiles)

/-- Duplicate test over path lists. -/
def hasDup : List String → Bool
  | [] => false
  | p :: ps => ps.contains p || hasDup ps

/-- Modelled from the spec: the Artifact Packager — assembles the ordered
bundle after the defensive path-uniqueness check, failing with
`PackagingError` on a collision (spec 4.8). -/
def package (files : List BundleFile) : Except GenError ArtifactBundle :=
  if hasDup (files.map (fun f => f.relativePath)) then
    .error ⟨.packagingError, "duplicate artifact path"⟩
  else
    .ok ⟨files⟩

/-! ## Engine: the generation pipeline (section 2 control flow) -/

/-- Modelled from the spec: request validation — an empty resource
selection is rejected before generation starts (section 3 invariant). -/
def validateRequest (req : GenerationRequest) : Except GenError Unit :=
  match req.selectedResourceNames with
  | [] => .error ⟨.schemaError, "empty selection"⟩
  | _ :: _ => .ok ()

/-- Modelled from the spec: the selection must name only schema resources
(section 3 invariant `selectedResourceNames` a subset of schema names). -/
def checkSelection (selected : List String) (m : SchemaModel) :
    Except GenError Unit :=
  if selected.all (fun n => (m.resources.map (fun r => r.rawName)).contains n) then
    .ok ()
  else
    .error ⟨.schemaError, "selection names a resource not in the schema"⟩

/-- Modelled from the spec: the whole generation engine — normalizer,
resolver, route synthesizer, auth scaffolder, documentation synthesizer,
renderer and packager composed in the section 2 control flow; a pure
function of the request, as the statelessness requirement of section 3
demands. Any stage error aborts the remaining stages. -/
def generate (req : GenerationRequest) :
    Except GenError (ArtifactBundle × List Warning) :=
  match validateRequest req with
  | .error e => .error e
  | .ok _ =>
    match normalize req.raw with
    | .error e => .error e
    | .ok m0 =>
      let m := resolveSchema req.targetFamily m0
      match checkSelection req.selectedResourceNames m with
      | .error e => .error e
      | .ok _ =>
        let routes := applyAuth req.includeAuth
          (synthRoutes req.selectedResourceNames m)
        let warnings := typeWarnings req.selectedResourceNames m
        match renderAll req.targetFamily req.includeAuth req.includeDocs
            req.authConfig req.selectedResourceNames m routes with
        | .error e => .error e
        | .ok files =>
          match package files with
          | .error e => .error e
          | .ok bundle => .ok (bundle, warnings)

/-- Modelled from the spec: the caller-facing result — on success
`{status: "generated", bundle, warnings}`, on failure
`{status: "failed", errorKind, message}` with no bundle (section 6 output
contract). -/
inductive GenResult where
  | generated (bundle : ArtifactBundle) (warnings : List Warning)
  | failed (errorKind : ErrorKind) (message : String)
deriving DecidableEq

/-- Modelled from the spec: wrapping of the pipeline outcome into the
output contract of section 6. -/
def runGeneration (req : GenerationRequest) : GenResult :=
  match generate req with
  | .ok (b, w) => .generated b w
  | .error e => .failed e.kind e.message

/-- Modelled from the spec: the `status` field of the caller-facing result
(section 6 output contract). -/
def resultStatus : GenResult → String
  | .generated _ _ => "generated"
  | .failed _ _ => "failed"

/-- Success test on a caller-facing result. -/
def isGeneratedResult : GenResult → Bool
  | .generated _ _ => true
  | .failed _ _ => false

/-- The route-spec sequence a request gives rise to (the sequence shared by
the renderer and the documentation synthesizer inside `generate`); empty
when normalization fails. -/
def synthesizedRoutes (req : GenerationRequest) : List RouteSpec :=
  match normalize req.raw with
  | .error _ => []
  | .ok m0 =>
    applyAuth req.includeAuth
      (synthRoutes req.selectedResourceNames (resolveSchema req.targetFamily m0))

/-! ## Concrete instances used by the claims -/

/-- The single-resource `donor` schema of the CRUD completeness example:
fields id (primary key), name, blood_group, phone, location. -/
def donorPayload : RawPayload :=
  ⟨[⟨"donor", .relational,
     [⟨"id", "int", false, true, none⟩,
      ⟨"name", "varchar", true, false, none⟩,
      ⟨"blood_group", "varchar", true, false, none⟩,
      ⟨"phone", "varchar", true, false, none⟩,
      ⟨"location", "varchar", true, false, none⟩]⟩]⟩

/-- The CRUD completeness example request: donor selected, syncRouted,
no auth, with docs. -/
def donorRequest : GenerationRequest :=
  { raw := donorPayload, selectedResourceNames := ["donor"],
    targetFamily := .syncRouted, includeAuth := false, includeDocs := true,
    authConfig := none }

/-- The bundle of the donor request (empty bundle in the unreached failure
branch). -/
def donorBundle : ArtifactBundle :=
  match runGeneration donorRequest with
  | .generated b _ => b
  | .failed _ _ => ⟨[]⟩

/-- The warnings of the donor request (empty in the unreached failure
branch). -/
def donorWarnings : List Warning :=
  match runGeneration donorRequest with
  | .generated _ w => w
  | .failed _ _ => []

/-- The collision determinism example: two relational resources raw-named
`User` and `USER`, differing only by case, in that declaration order. -/
def userPayload : RawPayload :=
  ⟨[⟨"User", .relational, [⟨"id", "int", false, true, none⟩]⟩,
    ⟨"USER", .relational, [⟨"id", "int", false, true, none⟩]⟩]⟩

/-- The normalized form of `userPayload` (empty schema in the unreached
failure branch). -/
def userSchema : SchemaModel :=
  match normalize userPayload with
  | .ok m => m
  | .error _ => ⟨[]⟩

/-- The resolver's output on the `User`/`USER` schema. -/
def userResolved : SchemaModel :=
  resolveSchema .syncRouted userSchema

/-- The resolved `invoice` resource of the auth gating example. -/
def invoiceResource : Resource :=
  ⟨"invoice", "invoice", .relational,
   [⟨"id", "id", .integer, false, true⟩,
    ⟨"amount", "amount", .integer, true, false⟩]⟩

/-- The auth-scaffolded DELETE route of `invoice`. -/
def invoiceDeleteRoute : RouteSpec :=
  ⟨"invoice", .delete, "/invoices/{id}", [], [], true, none⟩

/-- A payload whose single resource has zero fields: a `SchemaError` input
to the Normalizer. -/
def badPayload : RawPayload :=
  ⟨[⟨"item", .relational, []⟩]⟩

/-- A request over `badPayload`, used to exercise the atomic-failure
contract. -/
def badRequest : GenerationRequest :=
  { raw := badPayload, selectedResourceNames := ["item"],
    targetFamily := .syncRouted, includeAuth := false, includeDocs := false,
    authConfig := none }

/-- A concrete connection form entry, password included. -/
def sampleConn : ConnectionData :=
  ⟨"localhost", "3306", "root", "hunter2", "mydb", ""⟩

/-! ## Helper lemmas -/

theorem getItem_setItem (store : LocalStorage) (key : String)
    (v : StoredConnection) : getItem (setItem store key v) key = some v := by
  simp [getItem, setItem]

theorem normalizeResource_error_iff (r : RawResource) :
    (∃ e, normalizeResource r = .error e) ↔ r.fields = [] := by
  cases hf : r.fields with
  | nil => simp [normalizeResource, hf]
  | cons f fs => simp [normalizeResource, hf]

theorem normalizeResource_error_kind (r : RawResource) (e : GenError)
    (h : normalizeResource r = .error e) : e.kind = .schemaError := by
  cases hf : r.fields with
  | nil =>
    simp [normalizeResource, hf] at h
    cases h
    rfl
  | cons f fs => simp [normalizeResource, hf] at h

theorem normalizeAll_error_iff (rs : List RawResource) :
    (∃ e, normalizeAll rs = .error e) ↔ ∃ r ∈ rs, r.fields = [] := by
  induction rs with
  | nil =>
    constructor
    · rintro ⟨e, he⟩
      simp [normalizeAll] at he
    · rintro ⟨r, hr, -⟩
      simp at hr
  | cons r rs ih =>
    constructor
    · rintro ⟨e, he⟩
      cases hr : normalizeResource r with
      | error e1 =>
        exact ⟨r, List.mem_cons_self r rs, (normalizeResource_error_iff r).mp ⟨e1, hr⟩⟩
      | ok r' =>
        cases hall : normalizeAll rs with
        | error e2 =>
          obtain ⟨x, hx, hxf⟩ := ih.mp ⟨e2, hall⟩
          exact ⟨x, List.mem_cons_of_mem r hx, hxf⟩
        | ok rs' => simp [normalizeAll, hr, hall] at he
    · rintro ⟨x, hx, hxf⟩
      rcases List.mem_cons.mp hx with rfl | hx'
      · obtain ⟨e1, he1⟩ := (normalizeResource_error_iff x).mpr hxf
        exact ⟨e1, by simp [normalizeAll, he1]⟩
      · obtain ⟨e2, he2⟩ := ih.mpr ⟨x, hx', hxf⟩
        cases hr : normalizeResource r with
        | error e1 => exact ⟨e1, by simp [normalizeAll, hr]⟩
        | ok r' => exact ⟨e2, by simp [normalizeAll, hr, he2]⟩

theorem normalizeAll_error_kind (rs : List RawResource) (e : GenError)
    (h : normalizeAll rs = .error e) : e.kind = .schemaError := by
  induction rs with
  | nil => simp [normalizeAll] at h
  | cons r rs ih =>
    cases hr : normalizeResource r with
    | error e1 =>
      simp [normalizeAll, hr] at h
      cases h
      exact normalizeResource_error_kind r e hr
    | ok r' =>
      cases hall : normalizeAll rs with
      | error e2 =>
        simp [normalizeAll, hr, hall] at h
        cases h
        exact ih hall
      | ok rs' => simp [normalizeAll, hr, hall] at h

theorem normalize_error_iff (p : RawPayload) :
    (∃ e, normalize p = .error e) ↔
      (p.resources = [] ∨ ∃ r ∈ p.resources, r.fields = []) := by
  obtain ⟨rsrc⟩ := p
  cases rsrc with
  | nil => simp [normalize]
  | cons r rs =>
    have hiff := normalizeAll_error_iff (r :: rs)
    constructor
    · rintro ⟨e, he⟩
      cases hall : normalizeAll (r :: rs) with
      | error e2 => exact Or.inr (hiff.mp ⟨e2, hall⟩)
      | ok rs' => simp [normalize, hall] at he
    · rintro (h | h)
      · simp at h
      · obtain ⟨e2, he2⟩ := hiff.mpr h
        exact ⟨e2, by simp [normalize, he2]⟩

/-! ## Claims -/

/-- C1, counterexample: an actually successful generation carries status
"generated" under the section 6 output contract, yet the frontend handler
`handleGenerate` classifies that very status as a failure — it recognises
success only by the string "success". -/
theorem c1_status_counterexample :
    resultStatus (runGeneration donorRequest) = "generated" ∧
    handleGenerateResponse ⟨resultStatus (runGeneration donorRequest), none⟩ =
      .showError "Generation failed" :=
  ⟨rfl, rfl⟩

/-- C1, amended: the frontend handler recognises success exactly when the
response's status field equals the string "success" (not "generated"). -/
theorem c1_success_recognition :
    ∀ result : GenResponse,
      handleGenerateResponse result = .showSuccess ↔ result.status = "success" := by
  intro result
  unfold handleGenerateResponse
  split
  · next h => simp [h]
  · next h => simp [h]

/-- C1, witness: the amended recognition rule evaluated on a concrete
"success" response. -/
theorem c1_success_recognition_witness :
    handleGenerateResponse ⟨"success", none⟩ = .showSuccess ↔
      (⟨"success", none⟩ : GenResponse).status = "success" :=
  c1_success_recognition ⟨"success", none⟩

/-- C2: generation is a deterministic function of the request — two runs on
the same request that both succeed produce identical file sequences (hence
identical order and byte content) and identical warning sequences. -/
theorem c2_generation_deterministic
    (r : GenerationRequest) (b₁ b₂ : ArtifactBundle) (w₁ w₂ : List Warning)
    (h₁ : runGeneration r = .generated b₁ w₁)
    (h₂ : runGeneration r = .generated b₂ w₂) :
    b₁.files = b₂.files ∧ w₁ = w₂ := by
  rw [h₁] at h₂
  injection h₂ with hb hw
  exact ⟨by rw [hb], hw⟩

/-- C2, witness: determinism instantiated on the donor request, whose two
runs both produce `donorBundle` and `donorWarnings`. -/
theorem c2_generation_deterministic_witness :
    donorBundle.files = donorBundle.files ∧ donorWarnings = donorWarnings :=
  c2_generation_deterministic donorRequest donorBundle donorBundle
    donorWarnings donorWarnings (by rfl) (by rfl)

/-- C3: an empty table selection is rejected before any generation step —
the frontend handler returns early without posting a request exactly when
the selection is empty, and the engine rejects an empty selection before
normalization or rendering run. -/
theorem c3_empty_selection_rejected :
    (∀ (databaseType : String) (tables : List String) (ui : UIState),
      generateAction databaseType tables ui = .rejectedEmptySelection ↔ tables = []) ∧
    (∀ req : GenerationRequest, req.selectedResourceNames = [] →
      generate req = .error ⟨.schemaError, "empty selection"⟩) := by
  constructor
  · intro d t u
    constructor
    · intro h
      cases t with
      | nil => rfl
      | cons a as => simp [generateAction] at h
    · intro h
      subst h
      rfl
  · intro req h
    have hv : validateRequest req = .error ⟨.schemaError, "empty selection"⟩ := by
      simp [validateRequest, h]
    simp [generate, hv]

/-- C3, witness: the rejection evaluated on concrete empty selections, for
the frontend handler and for the engine. -/
theorem c3_empty_selection_rejected_witness :
    (generateAction "mysql" [] ⟨"flask", true, true⟩ = .rejectedEmptySelection ↔
      ([] : List String) = []) ∧
    generate ⟨⟨[]⟩, [], .syncRouted, false, false, none⟩ =
      .error ⟨.schemaError, "empty selection"⟩ :=
  ⟨c3_empty_selection_rejected.1 "mysql" [] ⟨"flask", true, true⟩,
   c3_empty_selection_rejected.2 ⟨⟨[]⟩, [], .syncRouted, false, false, none⟩ rfl⟩

/-- C4: on the donor schema with request (selected donor, syncRouted, no
auth, with docs) the route sequence is exactly the five CRUD routes LIST
/donors, GET /donors/\x7bid\x7d, CREATE /donors, UPDATE /donors/\x7bid\x7d,
DELETE /donors/\x7bid\x7d, the documentation synthesizer emits exactly one
entry per route, the bundle's documentation file lists exactly these five
operations, and generation succeeds. -/
theorem c4_donor_crud_completeness :
    (synthesizedRoutes donorRequest).map (fun r => (r.method, r.path)) =
      [(.list, "/donors"), (.get, "/donors/{id}"), (.create, "/donors"),
       (.update, "/donors/{id}"), (.delete, "/donors/{id}")] ∧
    docEntriesFor (synthesizedRoutes donorRequest) =
      [⟨.list, "/donors", "donor"⟩, ⟨.get, "/donors/{id}", "donor"⟩,
       ⟨.create, "/donors", "donor"⟩, ⟨.update, "/donors/{id}", "donor"⟩,
       ⟨.delete, "/donors/{id}", "donor"⟩] ∧
    donorBundle.files.filter (fun f => f.relativePath == "docs/openapi") =
      [⟨"docs/openapi",
        "LIST /donors\nGET /donors/{id}\nCREATE /donors\nUPDATE /donors/{id}\nDELETE /donors/{id}",
        false⟩] ∧
    resultStatus (runGeneration donorRequest) = "generated" :=
  ⟨rfl, rfl, rfl, rfl⟩

/-- C5: the Identifier Resolver maps the declaration-ordered raw names
User, USER (case-only difference) to resolved names user, user_2 in the
same order — the first occurrence keeps the bare name and the collision
gets the numeric suffix; as a pure function of the schema, it does so on
every run. -/
theorem c5_case_collision_resolution :
    userResolved.resources.map (fun r => r.rawName) = ["User", "USER"] ∧
    userResolved.resources.map (fun r => r.resolvedName) = ["user", "user_2"] :=
  ⟨rfl, rfl⟩

/-- C6: every route wrapped by the Auth Scaffolder (so every CRUD route of
every resource when includeAuth is true, the DELETE route included) reacts
to a missing or invalid credential by failing the access check before
business logic runs: the response is an authorization failure, business
logic never executes, and the data store is untouched. -/
theorem c6_auth_gating (rs : List RouteSpec) (spec : RouteSpec) (c : Cred)
    (business : DataStore → DataStore) (st : DataStore)
    (hmem : spec ∈ authScaffoldRoutes rs)
    (hc : c = .missing ∨ c = .invalid) :
    runRoute spec c business st = ⟨.authFailureResponse, false, st⟩ := by
  obtain ⟨r₀, -, rfl⟩ := List.mem_map.mp hmem
  rcases hc with rfl | rfl <;> rfl

/-- C6, witness: the scaffolded DELETE route of invoice, with no
credential, on a concrete store. -/
theorem c6_auth_gating_witness :
    runRoute invoiceDeleteRoute .missing (fun st => st) [] =
      ⟨.authFailureResponse, false, []⟩ :=
  c6_auth_gating (routesFor invoiceResource) invoiceDeleteRoute .missing
    (fun st => st) [] (by decide) (Or.inl rfl)

/-- C7: the Schema Normalizer fails exactly on payloads with zero resources
or some resource with zero fields, every such failure is a SchemaError, and
when it fails on a request that passed the selection guard the whole
generation aborts with that same error — before any rendering. -/
theorem c7_schema_normalizer :
    (∀ p : RawPayload,
      (∃ e, normalize p = .error e) ↔
        (p.resources = [] ∨ ∃ r ∈ p.resources, r.fields = [])) ∧
    (∀ (p : RawPayload) (e : GenError),
      normalize p = .error e → e.kind = .schemaError) ∧
    (∀ (req : GenerationRequest) (e : GenError),
      req.selectedResourceNames ≠ [] → normalize req.raw = .error e →
        generate req = .error e) := by
  refine ⟨normalize_error_iff, ?_, ?_⟩
  · intro p e h
    obtain ⟨rsrc⟩ := p
    cases rsrc with
    | nil =>
      simp [normalize] at h
      cases h
      rfl
    | cons r rs =>
      cases hall : normalizeAll (r :: rs) with
      | error e2 =>
        simp [normalize, hall] at h
        cases h
        exact normalizeAll_error_kind (r :: rs) e hall
      | ok rs' => simp [normalize, hall] at h
  · intro req e hne hnorm
    cases hsel : req.selectedResourceNames with
    | nil => exact absurd hsel hne
    | cons s ss => simp [generate, validateRequest, hsel, hnorm]

/-- C7, witness: the zero-field payload makes the normalizer and the whole
pipeline fail with the same SchemaError. -/
theorem c7_schema_normalizer_witness :
    (⟨.schemaError, "resource item has no fields"⟩ : GenError).kind = .schemaError ∧
    generate badRequest = .error ⟨.schemaError, "resource item has no fields"⟩ :=
  ⟨c7_schema_normalizer.2.1 badPayload ⟨.schemaError, "resource item has no fields"⟩ rfl,
   c7_schema_normalizer.2.2 badRequest ⟨.schemaError, "resource item has no fields"⟩
     (by decide) rfl⟩

/-- C8: any fatal pipeline error aborts generation atomically — the caller
receives the failure result `{status: "failed", errorKind, message}` and
never a generated bundle, partial or otherwise. -/
theorem c8_atomic_failure (req : GenerationRequest) (e : GenError)
    (h : generate req = .error e) :
    runGeneration req = .failed e.kind e.message ∧
    resultStatus (runGeneration req) = "failed" ∧
    isGeneratedResult (runGeneration req) = false := by
  have hr : runGeneration req = .failed e.kind e.message := by
    simp [runGeneration, h]
  exact ⟨hr, by rw [hr]; rfl, by rw [hr]; rfl⟩

/-- C8, witness: atomic failure on the zero-field request. -/
theorem c8_atomic_failure_witness :
    runGeneration badRequest = .failed .schemaError "resource item has no fields" ∧
    resultStatus (runGeneration badRequest) = "failed" ∧
    isGeneratedResult (runGeneration badRequest) = false :=
  c8_atomic_failure badRequest ⟨.schemaError, "resource item has no fields"⟩ rfl

/-- C9: on every successful connect, `handleConnect` stores under
localStorage key dbConnection the database type, the complete connection
form data (host, port, username, password, database, connection string)
and the fetched table-or-collection list, then navigates to the generator;
and the generator page adopts whatever record is stored under that key
verbatim, with no validation. -/
theorem c9_connection_persistence :
    (∀ (connectionType : String) (cd : ConnectionData) (res : ConnectResult)
        (store : LocalStorage),
      res.status = "success" →
        getItem (handleConnect connectionType cd res store).1 "dbConnection" =
          some ⟨connectionType, cd, res.tables <|> res.collections⟩ ∧
        (handleConnect connectionType cd res store).2 = .generate ∧
        apiGeneratorLoad (handleConnect connectionType cd res store).1 =
          .loaded ⟨connectionType, cd, res.tables <|> res.collections⟩
            ((res.tables <|> res.collections).getD [])) ∧
    (∀ (store : LocalStorage) (c : StoredConnection),
      getItem store "dbConnection" = some c →
        apiGeneratorLoad store = .loaded c (c.tables.getD [])) := by
  constructor
  · intro ct cd res store h
    have hc : handleConnect ct cd res store =
        (setItem store "dbConnection" ⟨ct, cd, res.tables <|> res.collections⟩,
         .generate) := by
      simp [handleConnect, h]
    rw [hc]
    refine ⟨getItem_setItem store "dbConnection" _, rfl, ?_⟩
    have hget : getItem (setItem store "dbConnection"
        ⟨ct, cd, res.tables <|> res.collections⟩) "dbConnection" =
        some ⟨ct, cd, res.tables <|> res.collections⟩ := by
      simp [getItem, setItem]
    simp [apiGeneratorLoad, hget]
  · intro store c h
    simp [apiGeneratorLoad, h]

/-- C9, witness: a concrete successful MySQL connect stores the full form
data, password included, and the generator page reads it back. -/
theorem c9_connection_persistence_witness :
    getItem (handleConnect "mysql" sampleConn
        ⟨"success", none, some ["users"], none⟩ []).1 "dbConnection" =
      some ⟨"mysql", sampleConn, some ["users"] <|> none⟩ ∧
    (handleConnect "mysql" sampleConn ⟨"success", none, some ["users"], none⟩ []).2 =
      .generate ∧
    apiGeneratorLoad (handleConnect "mysql" sampleConn
        ⟨"success", none, some ["users"], none⟩ []).1 =
      .loaded ⟨"mysql", sampleConn, some ["users"] <|> none⟩
        ((some ["users"] <|> none).getD []) :=
  c9_connection_persistence.1 "mysql" sampleConn
    ⟨"success", none, some ["users"], none⟩ [] rfl

/-- C10: whatever the state of the unbound configuration controls, a
non-empty selection makes `handleGenerate` post a body whose framework is
the constant "flask" and whose include_auth is the constant true. -/
theorem c10_constant_request_body (databaseType : String) (tables : List String)
    (ui : UIState) (h : tables ≠ []) :
    generateAction databaseType tables ui =
      .posted ⟨databaseType, tables, "flask", true⟩ := by
  cases tables with
  | nil => exact absurd rfl h
  | cons a as => rfl

/-- C10, witness: even with the controls set to express and both checkboxes
cleared, the posted body says flask with auth on. -/
theorem c10_constant_request_body_witness :
    generateAction "mysql" ["users"] ⟨"express", false, false⟩ =
      .posted ⟨"mysql", ["users"], "flask", true⟩ :=
  c10_constant_request_body "mysql" ["users"] ⟨"express", false, false⟩ (by decide)

end APIWeaver
